import Mathlib

/-!
# SNESDev-RPi: a shallow embedding of `src/main.c`

The program polls two SNES pads over GPIO and re-asserts, every cycle, the
state of 24 keys on a uinput virtual keyboard.  The embedding is
state-passing: every C function that touches the outside world takes a
`World` and returns the `World` after it, and the outside world is recorded as
the ordered list of the calls made (`World.trace`).  What the outside world
answers (return values of `open`, `ioctl`, `write`, GPIO input levels) is
given by an `Env`.

Not modelled: `event.time` (filled by `gettimeofday`), the content of the
`uinput_user_dev` record, the duration of `delay`.
-/

namespace SNESDev

/-! ## Constants -/

/-- Event type `EV_SYN` of `linux/input.h`. -/
def EV_SYN : Nat := 0x00
/-- Event type `EV_KEY` of `linux/input.h`. -/
def EV_KEY : Nat := 0x01
/-- Event type `EV_REL` of `linux/input.h`. -/
def EV_REL : Nat := 0x02
/-- Synchronisation code `SYN_REPORT` of `linux/input.h`. -/
def SYN_REPORT : Nat := 0

def KEY_Q : Nat := 16
def KEY_W : Nat := 17
def KEY_E : Nat := 18
def KEY_R : Nat := 19
def KEY_T : Nat := 20
def KEY_Y : Nat := 21
def KEY_U : Nat := 22
def KEY_I : Nat := 23
def KEY_O : Nat := 24
def KEY_P : Nat := 25
def KEY_ENTER : Nat := 28
def KEY_A : Nat := 30
def KEY_S : Nat := 31
def KEY_F : Nat := 33
def KEY_Z : Nat := 44
def KEY_X : Nat := 45
def KEY_C : Nat := 46
def KEY_V : Nat := 47
def KEY_B : Nat := 48
def KEY_RIGHTSHIFT : Nat := 54
def KEY_UP : Nat := 103
def KEY_LEFT : Nat := 105
def KEY_RIGHT : Nat := 106
def KEY_DOWN : Nat := 108

/-- Pin numbers of `bcm2835.h` (P1 header, board revision 1). -/
def RPI_GPIO_P1_11 : Nat := 17
def RPI_GPIO_P1_12 : Nat := 18
def RPI_GPIO_P1_13 : Nat := 21
def RPI_GPIO_P1_15 : Nat := 22
def RPI_GPIO_P1_16 : Nat := 23
def RPI_GPIO_P1_18 : Nat := 24
def RPI_GPIO_P1_22 : Nat := 25

/-- Logic levels of `bcm2835.h`. -/
def HIGH : Nat := 1
def LOW : Nat := 0

/-- Time to wait after each cycle (`#define FRAMEWAIT 20`). -/
def FRAMEWAIT : Nat := 20

def BUTTONPIN : Nat := RPI_GPIO_P1_11
def BUTTONLOW : Nat := RPI_GPIO_P1_12
def BUTTONHIGH : Nat := RPI_GPIO_P1_13

/-- Modelled from the spec: the selector macros `SNES_*` of `SNESpad.h`, which is
not among the sources.  The spec fixes mask bits 0-11 to the button identities
B, Y, Select, Start, Up, Down, Left, Right, A, X, L, R in this order. -/
def SNES_B : Nat := 0x001
/-- Modelled from the spec: selector of Y, mask bit 1 (`SNESpad.h` is missing). -/
def SNES_Y : Nat := 0x002
/-- Modelled from the spec: selector of Select, mask bit 2 (`SNESpad.h` is missing). -/
def SNES_SELECT : Nat := 0x004
/-- Modelled from the spec: selector of Start, mask bit 3 (`SNESpad.h` is missing). -/
def SNES_START : Nat := 0x008
/-- Modelled from the spec: selector of Up, mask bit 4 (`SNESpad.h` is missing). -/
def SNES_UP : Nat := 0x010
/-- Modelled from the spec: selector of Down, mask bit 5 (`SNESpad.h` is missing). -/
def SNES_DOWN : Nat := 0x020
/-- Modelled from the spec: selector of Left, mask bit 6 (`SNESpad.h` is missing). -/
def SNES_LEFT : Nat := 0x040
/-- Modelled from the spec: selector of Right, mask bit 7 (`SNESpad.h` is missing). -/
def SNES_RIGHT : Nat := 0x080
/-- Modelled from the spec: selector of A, mask bit 8 (`SNESpad.h` is missing). -/
def SNES_A : Nat := 0x100
/-- Modelled from the spec: selector of X, mask bit 9 (`SNESpad.h` is missing). -/
def SNES_X : Nat := 0x200
/-- Modelled from the spec: selector of L, mask bit 10 (`SNESpad.h` is missing). -/
def SNES_L : Nat := 0x400
/-- Modelled from the spec: selector of R, mask bit 11 (`SNESpad.h` is missing). -/
def SNES_R : Nat := 0x800

/-! ## Data model -/

/-- The `struct input_event` of `linux/input.h` without its `time` field:
`type` and `code` are `__u16`, `value` is `__s32`. -/
structure input_event where
  type : Nat
  code : Nat
  value : Int
deriving DecidableEq, Repr

/-- The four texts the program prints with `printf`. -/
inductive Message where
  /-- The text "Unable to open /dev/uinput". -/
  | unable_to_open
  /-- The text "Unable to create UINPUT device.". -/
  | unable_to_create
  /-- The text "Unable to find uinput device". -/
  | unable_to_find
  /-- The text "simulate key error". -/
  | simulate_key_error
deriving DecidableEq, Repr

/-- The `ioctl` requests used on the uinput descriptor. -/
inductive Request where
  | UI_SET_EVBIT
  | UI_SET_KEYBIT
  | UI_DEV_CREATE
deriving DecidableEq, Repr

/-- Pin function selection (`BCM2835_GPIO_FSEL_INPT`, `BCM2835_GPIO_FSEL_OUTP`). -/
inductive FSel where
  | INPT
  | OUTP
deriving DecidableEq, Repr

/-- One call to the outside world, with the value it returned where the
program can see one. -/
inductive Action where
  /-- Call `bcm2835_gpio_fsel(pin, mode)`. -/
  | gpio_fsel (pin : Nat) (mode : FSel)
  /-- Call `bcm2835_gpio_write(pin, level)`. -/
  | gpio_write (pin : Nat) (level : Nat)
  /-- Call `bcm2835_gpio_lev(pin)`, which returned `level`. -/
  | gpio_lev (pin : Nat) (level : Nat)
  /-- Call `open("/dev/uinput", ...)`, which returned `fd`. -/
  | open_uinput (fd : Int)
  /-- Call `ioctl(fd, request, arg)`. -/
  | ioctl (fd : Int) (request : Request) (arg : Nat)
  /-- Call `write(fd, &uinp, sizeof(uinp))` of the device description. -/
  | write_user_dev (fd : Int)
  /-- Call `write(fd, &event, sizeof(event))`, which returned `ret`. -/
  | write (fd : Int) (event : input_event) (ret : Int)
  /-- Call `printf` with one of the program's texts. -/
  | printf (msg : Message)
  /-- Call `delay(ms)`. -/
  | delay (ms : Nat)
deriving DecidableEq, Repr

/-- What the outside world answers. -/
structure Env where
  /-- Return value of `bcm2835_init()`: 0 on failure. -/
  bcm2835_init : Nat
  /-- Return value of `open("/dev/uinput", ...)`: negative on failure. -/
  open_ret : Int
  /-- Return value of `ioctl(fd, UI_DEV_CREATE)`: non-zero on failure. -/
  ioctl_create : Int
  /-- Return value of the `k`-th `write` call of the run (counted from 0). -/
  write_ret : Nat → Int
  /-- Level (`HIGH` is `true`) seen by the `k`-th `bcm2835_gpio_lev` call of the
  run when it reads `pin`. -/
  lev : Nat → Nat → Bool

/-- The state threaded through the program: how many `write` and
`bcm2835_gpio_lev` calls were made, and every call so far, oldest first. -/
structure World where
  writes : Nat
  reads : Nat
  trace : List Action
deriving DecidableEq, Repr

/-- The world before the program starts. -/
def World.init : World := ⟨0, 0, []⟩

/-- The `snespad` record of `SNESpad.h`: the three pins of one pad. -/
structure snespad where
  clock : Nat
  strobe : Nat
  data : Nat
deriving DecidableEq, Repr

/-! ## Primitives -/

/-- Append one call to the trace. -/
def World.log (w : World) (a : Action) : World :=
  { w with trace := w.trace ++ [a] }

/-- Model of `printf(msg)`. -/
def printf (msg : Message) (w : World) : World :=
  w.log (Action.printf msg)

/-- Model of `write(fd, &event, sizeof(event))`: the result comes from the environment. -/
def write (env : Env) (fd : Int) (event : input_event) (w : World) : Int × World :=
  let ret := env.write_ret w.writes
  (ret, { w with writes := w.writes + 1, trace := w.trace ++ [Action.write fd event ret] })

/-! ## `send_key_event` and `processBtn` (main.c lines 83-128) -/

/-- Model of `send_key_event`: sends a key event to the virtual device.  `event.code`
is a `__u16`, so the `unsigned int keycode` is truncated on assignment. -/
def send_key_event (env : Env) (fd : Int) (keycode : Nat) (keyvalue : Int) (w : World) : World :=
  let event : input_event := ⟨EV_KEY, keycode % 65536, keyvalue⟩
  let r1 := write env fd event w
  let w := if r1.1 < 0 then printf Message.simulate_key_error r1.2 else r1.2
  let event : input_event := ⟨EV_SYN, SYN_REPORT, 0⟩
  let r2 := write env fd event w
  let w := r2.2
  let r3 := write env fd event w
  if r3.1 < 0 then printf Message.simulate_key_error r3.2 else r3.2

/-- Model of `processBtn`: checks if a button on the pad is pressed and sends an
event according to the button state. -/
def processBtn (env : Env) (buttons mask key : Nat) (uinh : Int) (w : World) : World :=
  if (buttons &&& mask) = mask then
    send_key_event env uinh key 1 w
  else
    send_key_event env uinh key 0 w

/-! ## The pad driver (`SNESpad.c`, not among the sources) -/

/-- Model of `bcm2835_gpio_fsel(pin, mode)`. -/
def gpio_fsel (pin : Nat) (mode : FSel) (w : World) : World :=
  w.log (Action.gpio_fsel pin mode)

/-- Model of `bcm2835_gpio_write(pin, level)`. -/
def gpio_write (pin : Nat) (level : Nat) (w : World) : World :=
  w.log (Action.gpio_write pin level)

/-- Model of `bcm2835_gpio_lev(pin)`: the level comes from the environment. -/
def gpio_lev (env : Env) (pin : Nat) (w : World) : Nat × World :=
  let level := if env.lev pin w.reads then HIGH else LOW
  (level, { w with reads := w.reads + 1, trace := w.trace ++ [Action.gpio_lev pin level] })

/-- Model of `delay(ms)`. -/
def delay (ms : Nat) (w : World) : World :=
  w.log (Action.delay ms)

/-- Modelled from the spec: `initializePad` of the missing `SNESpad.c`.  Section 4.1
step 1: configure clock and strobe pins as outputs, data pin as input. -/
def initializePad (pad : snespad) (w : World) : World :=
  let w := gpio_fsel pad.clock FSel.OUTP w
  let w := gpio_fsel pad.strobe FSel.OUTP w
  gpio_fsel pad.data FSel.INPT w

/-- Modelled from the spec: the bit loop of `updateButtons` of the missing
`SNESpad.c`.  Section 4.1 steps 3-5: the first bit is read before any clock pulse,
each later bit after pulsing the clock (high, then low) once; a low level sets
bit `i` of the mask, a high level leaves it 0.  `n` bits remain to be read, `i` is
the position of the next one. -/
def readBits (env : Env) (pad : snespad) : Nat → Nat → Nat → World → Nat × World
  | 0, _, mask, w => (mask, w)
  | n + 1, i, mask, w =>
    let w := if i = 0 then w else gpio_write pad.clock LOW (gpio_write pad.clock HIGH w)
    let r := gpio_lev env pad.data w
    let mask := if r.1 = LOW then mask ||| (1 <<< i) else mask
    readBits env pad n (i + 1) mask r.2

/-- Modelled from the spec: `updateButtons` of the missing `SNESpad.c`.  Section 4.1
step 2: drive strobe high, then low; then read the 12 bits into a fresh mask.  The
result is stored in a `uint16_t`. -/
def updateButtons (env : Env) (pad : snespad) (w : World) : Nat × World :=
  let w := gpio_write pad.strobe HIGH w
  let w := gpio_write pad.strobe LOW w
  let r := readBits env pad 12 0 0 w
  (r.1 % 65536, r.2)

/-! ## `setup_uinput_device` (main.c lines 49-80) -/

/-- Model of `ioctl(fd, request, arg)` where the program ignores the result. -/
def ioctl (fd : Int) (request : Request) (arg : Nat) (w : World) : World :=
  w.log (Action.ioctl fd request arg)

/-- The loop `for (i = 0; i < 256; i++) ioctl(uinp_fd, UI_SET_KEYBIT, i)`, with `n`
rounds left. -/
def set_keybits (fd : Int) : Nat → Nat → World → World
  | 0, _, w => w
  | n + 1, i, w => set_keybits fd n (i + 1) (ioctl fd Request.UI_SET_KEYBIT i w)

/-- Model of `setup_uinput_device`: returns the descriptor, or -1. -/
def setup_uinput_device (env : Env) (w : World) : Int × World :=
  let uinp_fd := env.open_ret
  let w := w.log (Action.open_uinput uinp_fd)
  if uinp_fd = 0 then
    (-1, printf Message.unable_to_open w)
  else
    let w := ioctl uinp_fd Request.UI_SET_EVBIT EV_KEY w
    let w := ioctl uinp_fd Request.UI_SET_EVBIT EV_REL w
    let w := set_keybits uinp_fd 256 0 w
    let w := { w with writes := w.writes + 1, trace := w.trace ++ [Action.write_user_dev uinp_fd] }
    let w := ioctl uinp_fd Request.UI_DEV_CREATE 0 w
    if env.ioctl_create ≠ 0 then
      (-1, printf Message.unable_to_create w)
    else
      (uinp_fd, w)

/-! ## `main` (main.c lines 131-212) -/

/-- The 12 `processBtn` calls for the first controller (main.c lines 177-188). -/
def emit_pad1 (env : Env) (buttons1 : Nat) (uinp_fd : Int) (w : World) : World :=
  let w := processBtn env buttons1 SNES_A KEY_X uinp_fd w
  let w := processBtn env buttons1 SNES_B KEY_Z uinp_fd w
  let w := processBtn env buttons1 SNES_X KEY_S uinp_fd w
  let w := processBtn env buttons1 SNES_Y KEY_A uinp_fd w
  let w := processBtn env buttons1 SNES_L KEY_Q uinp_fd w
  let w := processBtn env buttons1 SNES_R KEY_W uinp_fd w
  let w := processBtn env buttons1 SNES_SELECT KEY_RIGHTSHIFT uinp_fd w
  let w := processBtn env buttons1 SNES_START KEY_ENTER uinp_fd w
  let w := processBtn env buttons1 SNES_LEFT KEY_LEFT uinp_fd w
  let w := processBtn env buttons1 SNES_RIGHT KEY_RIGHT uinp_fd w
  let w := processBtn env buttons1 SNES_UP KEY_UP uinp_fd w
  processBtn env buttons1 SNES_DOWN KEY_DOWN uinp_fd w

/-- The 12 `processBtn` calls for the second controller (main.c lines 191-202). -/
def emit_pad2 (env : Env) (buttons2 : Nat) (uinp_fd : Int) (w : World) : World :=
  let w := processBtn env buttons2 SNES_A KEY_E uinp_fd w
  let w := processBtn env buttons2 SNES_B KEY_R uinp_fd w
  let w := processBtn env buttons2 SNES_X KEY_T uinp_fd w
  let w := processBtn env buttons2 SNES_Y KEY_Y uinp_fd w
  let w := processBtn env buttons2 SNES_L KEY_U uinp_fd w
  let w := processBtn env buttons2 SNES_R KEY_I uinp_fd w
  let w := processBtn env buttons2 SNES_SELECT KEY_O uinp_fd w
  let w := processBtn env buttons2 SNES_START KEY_P uinp_fd w
  let w := processBtn env buttons2 SNES_LEFT KEY_C uinp_fd w
  let w := processBtn env buttons2 SNES_RIGHT KEY_B uinp_fd w
  let w := processBtn env buttons2 SNES_UP KEY_F uinp_fd w
  processBtn env buttons2 SNES_DOWN KEY_V uinp_fd w

/-- The part of one iteration after the two decodes: all 24 `processBtn` calls, then
`delay(FRAMEWAIT)` (main.c lines 177-205). -/
def emit_cycle (env : Env) (buttons1 buttons2 : Nat) (uinp_fd : Int) (w : World) : World :=
  let w := emit_pad1 env buttons1 uinp_fd w
  let w := emit_pad2 env buttons2 uinp_fd w
  delay FRAMEWAIT w

/-- One iteration of the `while (1)` loop (main.c lines 166-206). -/
def loop_body (env : Env) (pad1 pad2 : snespad) (uinp_fd : Int) (w : World) : World :=
  let r1 := updateButtons env pad1 w
  let buttons1 := r1.1
  let r2 := updateButtons env pad2 r1.2
  let buttons2 := r2.1
  emit_cycle env buttons1 buttons2 uinp_fd r2.2

/-- The first `n` iterations of the `while (1)` loop, which has no exit. -/
def main_loop (env : Env) (pad1 pad2 : snespad) (uinp_fd : Int) : Nat → World → World
  | 0, w => w
  | n + 1, w => main_loop env pad1 pad2 uinp_fd n (loop_body env pad1 pad2 uinp_fd w)

/-- Pins of the first pad (main.c lines 144-147). -/
def pad1 : snespad := ⟨RPI_GPIO_P1_18, RPI_GPIO_P1_16, RPI_GPIO_P1_22⟩

/-- Pins of the second pad (main.c lines 149-152). -/
def pad2 : snespad := ⟨RPI_GPIO_P1_18, RPI_GPIO_P1_16, RPI_GPIO_P1_15⟩

/-- How a run of `main` stands after the setup and `n` loop iterations: it has
returned `status`, or it is in the polling loop with descriptor `fd`. -/
inductive Outcome where
  | returned (status : Int)
  | polling (fd : Int)
deriving DecidableEq, Repr

/-- Model of `main`, observed up to the end of the `n`-th loop iteration. -/
def main (env : Env) (n : Nat) : Outcome × World :=
  let w := World.init
  if env.bcm2835_init = 0 then
    (Outcome.returned 1, w)
  else
    let w := gpio_fsel BUTTONPIN FSel.INPT w
    let w := gpio_fsel BUTTONLOW FSel.OUTP w
    let w := gpio_fsel BUTTONHIGH FSel.OUTP w
    let w := initializePad pad1 w
    let w := initializePad pad2 w
    let r := setup_uinput_device env w
    let uinp_fd := r.1
    if uinp_fd < 0 then
      (Outcome.returned (-1), printf Message.unable_to_find r.2)
    else
      (Outcome.polling uinp_fd, main_loop env pad1 pad2 uinp_fd n r.2)

/-- The exit status the parent process sees for a value returned by `main`. -/
def exit_status (status : Int) : Int := status % 256

/-! ## Observations on traces -/

/-- The events passed to `write`, in order. -/
def writtenEvents : List Action → List input_event
  | [] => []
  | Action.write _ ev _ :: rest => ev :: writtenEvents rest
  | _ :: rest => writtenEvents rest

/-- The key-state events (type `EV_KEY`) passed to `write`, in order. -/
def keyEvents (tr : List Action) : List input_event :=
  (writtenEvents tr).filter (fun ev => ev.type = EV_KEY)

/-- The synchronisation markers (type `EV_SYN`, code `SYN_REPORT`, value 0) passed to
`write`, in order. -/
def synEvents (tr : List Action) : List input_event :=
  (writtenEvents tr).filter (fun ev => ev = ⟨EV_SYN, SYN_REPORT, 0⟩)

/-- Number of `write` calls of an event that returned a negative result. -/
def failedWrites : List Action → Nat
  | [] => 0
  | Action.write _ _ ret :: rest => (if ret < 0 then 1 else 0) + failedWrites rest
  | _ :: rest => failedWrites rest

/-- Number of "simulate key error" messages printed. -/
def keyErrors (tr : List Action) : Nat :=
  tr.count (Action.printf Message.simulate_key_error)

/-- The mapping table of the first controller, (selector, key) in call order. -/
def table1 : List (Nat × Nat) :=
  [(SNES_A, KEY_X), (SNES_B, KEY_Z), (SNES_X, KEY_S), (SNES_Y, KEY_A), (SNES_L, KEY_Q),
   (SNES_R, KEY_W), (SNES_SELECT, KEY_RIGHTSHIFT), (SNES_START, KEY_ENTER),
   (SNES_LEFT, KEY_LEFT), (SNES_RIGHT, KEY_RIGHT), (SNES_UP, KEY_UP), (SNES_DOWN, KEY_DOWN)]

/-- The mapping table of the second controller, (selector, key) in call order. -/
def table2 : List (Nat × Nat) :=
  [(SNES_A, KEY_E), (SNES_B, KEY_R), (SNES_X, KEY_T), (SNES_Y, KEY_Y), (SNES_L, KEY_U),
   (SNES_R, KEY_I), (SNES_SELECT, KEY_O), (SNES_START, KEY_P),
   (SNES_LEFT, KEY_C), (SNES_RIGHT, KEY_B), (SNES_UP, KEY_F), (SNES_DOWN, KEY_V)]

/-- A run of `processBtn` over a table, in table order. -/
def processTable (env : Env) (buttons : Nat) (uinh : Int) : List (Nat × Nat) → World → World
  | [], w => w
  | (mask, key) :: rest, w => processTable env buttons uinh rest (processBtn env buttons mask key uinh w)

/-- The key-state event `processBtn` sends for one table entry. -/
def keyEventOf (buttons : Nat) (entry : Nat × Nat) : input_event :=
  ⟨EV_KEY, entry.2 % 65536, if (buttons &&& entry.1) = entry.1 then 1 else 0⟩

/-- The calls made between world `w0` and a later world `w1`. -/
def emitted (w0 w1 : World) : List Action :=
  w1.trace.drop w0.trace.length

/-- The synchronisation marker written by `send_key_event`. -/
def synReport : input_event := ⟨EV_SYN, SYN_REPORT, 0⟩

/-- An environment where every call succeeds and every data line is high: `open`
returns descriptor 3 and each `write` returns the 24 bytes of an event. -/
def envOK : Env := ⟨1, 3, 0, fun _ => 24, fun _ _ => true⟩

/-- As `envOK`, but the second `write` call of the run fails. -/
def envSecondWriteFails : Env := ⟨1, 3, 0, fun k => if k = 1 then -1 else 24, fun _ _ => true⟩

/-- As `envOK`, but `open` returns descriptor 0 (standard input was closed). -/
def envOpenZero : Env := ⟨1, 0, 0, fun _ => 24, fun _ _ => true⟩

/-- The key codes of the first controller, in call order. -/
def keys1 : List Nat := table1.map Prod.snd

/-- The key codes of the second controller, in call order. -/
def keys2 : List Nat := table2.map Prod.snd

/-- Calls that belong to decoding `pad`: driving its clock or strobe pin, or reading
its data pin. -/
def isDecodeOf (pad : snespad) : Action → Bool
  | Action.gpio_write pin _ => decide (pin = pad.clock) || decide (pin = pad.strobe)
  | Action.gpio_lev pin _ => decide (pin = pad.data)
  | _ => false

/-- Calls that belong to emitting the keys `keys`: writing a key-state event for one
of them, writing a synchronisation marker, or printing the write-error message. -/
def isEmitOf (keys : List Nat) : Action → Bool
  | Action.write _ ev _ => (decide (ev.type = EV_KEY) && decide (ev.code ∈ keys)) || decide (ev = synReport)
  | Action.printf msg => decide (msg = Message.simulate_key_error)
  | _ => false

/-- Every key-state event of the list is directly followed by a synchronisation
marker. -/
def keyThenSyn : List input_event → Bool
  | [] => true
  | ev :: rest =>
    (if ev.type = EV_KEY then decide (rest.head? = some synReport) else true) && keyThenSyn rest

/-- The trace holds no poll of a pad and no event write: no `bcm2835_gpio_lev` call
and no `write` of an input event. -/
def noPolling : List Action → Bool
  | [] => true
  | Action.gpio_lev _ _ :: _ => false
  | Action.write _ _ _ :: _ => false
  | _ :: rest => noPolling rest

/-- The levels returned by the `bcm2835_gpio_lev` calls of a trace, in order. -/
def samples : List Action → List Nat
  | [] => []
  | Action.gpio_lev _ level :: rest => level :: samples rest
  | _ :: rest => samples rest

/-- The level the environment gives to the `k`-th read of a pin. -/
def levelAt (env : Env) (pin : Nat) (k : Nat) : Nat :=
  if env.lev pin k then HIGH else LOW

/-- An environment where every call succeeds and every data line is low. -/
def envAllLow : Env := ⟨1, 3, 0, fun _ => 24, fun _ _ => false⟩

/-- Calls that can only belong to one controller: a read of its data pin (the clock
and strobe pins are shared by the two pads) or the write of a key-state event for
one of its keys. -/
def ownedBy (pad : snespad) (keys : List Nat) : Action → Bool
  | Action.gpio_lev pin _ => decide (pin = pad.data)
  | Action.write _ ev _ => decide (ev.type = EV_KEY) && decide (ev.code ∈ keys)
  | _ => false

/-- Every call of controller 1 (decode or key-event emission) comes before every
call of controller 2 in the trace. -/
def ctrl1BeforeCtrl2 (tr : List Action) : Prop :=
  ∀ (i j : Nat) (a b : Action), tr[i]? = some a → tr[j]? = some b →
    ownedBy pad1 keys1 a = true → ownedBy pad2 keys2 b = true → i < j

/-! ## Lemmas on traces -/

theorem emitted_of_trace_eq {w0 w1 : World} {X : List Action}
    (h : w1.trace = w0.trace ++ X) : emitted w0 w1 = X := by
  simp [emitted, h]

theorem writtenEvents_append (a b : List Action) :
    writtenEvents (a ++ b) = writtenEvents a ++ writtenEvents b := by
  induction a with
  | nil => rfl
  | cons x xs ih => cases x <;> simp [writtenEvents, ih]

theorem keyEvents_append (a b : List Action) :
    keyEvents (a ++ b) = keyEvents a ++ keyEvents b := by
  simp [keyEvents, writtenEvents_append]

theorem failedWrites_append (a b : List Action) :
    failedWrites (a ++ b) = failedWrites a + failedWrites b := by
  induction a with
  | nil => simp [failedWrites]
  | cons x xs ih => cases x <;> simp [failedWrites, ih, Nat.add_assoc]

theorem keyErrors_append (a b : List Action) :
    keyErrors (a ++ b) = keyErrors a + keyErrors b := by
  simp [keyErrors]

/-- The calls `send_key_event` makes, spelled out. -/
theorem send_key_event_trace (env : Env) (fd : Int) (keycode : Nat) (keyvalue : Int) (w : World) :
    (send_key_event env fd keycode keyvalue w).trace =
      w.trace ++
        ([Action.write fd ⟨EV_KEY, keycode % 65536, keyvalue⟩ (env.write_ret w.writes)] ++
         (if env.write_ret w.writes < 0 then [Action.printf Message.simulate_key_error] else []) ++
         [Action.write fd synReport (env.write_ret (w.writes + 1)),
          Action.write fd synReport (env.write_ret (w.writes + 2))] ++
         (if env.write_ret (w.writes + 2) < 0 then [Action.printf Message.simulate_key_error]
          else [])) := by
  unfold send_key_event
  by_cases h1 : env.write_ret w.writes < 0 <;>
    by_cases h3 : env.write_ret (w.writes + 2) < 0 <;>
    simp [write, printf, World.log, synReport, h1, h3, Nat.add_assoc]

theorem send_key_event_writes (env : Env) (fd : Int) (keycode : Nat) (keyvalue : Int) (w : World) :
    (send_key_event env fd keycode keyvalue w).writes = w.writes + 3 := by
  unfold send_key_event
  by_cases h1 : env.write_ret w.writes < 0 <;>
    by_cases h3 : env.write_ret (w.writes + 2) < 0 <;>
    simp [write, printf, World.log, h1, h3, Nat.add_assoc]

theorem send_key_event_reads (env : Env) (fd : Int) (keycode : Nat) (keyvalue : Int) (w : World) :
    (send_key_event env fd keycode keyvalue w).reads = w.reads := by
  unfold send_key_event
  by_cases h1 : env.write_ret w.writes < 0 <;>
    by_cases h3 : env.write_ret (w.writes + 2) < 0 <;>
    simp [write, printf, World.log, h1, h3, Nat.add_assoc]

/-- The events `send_key_event` writes: the key event, then two markers. -/
theorem send_key_event_written (env : Env) (fd : Int) (keycode : Nat) (keyvalue : Int)
    (w : World) :
    writtenEvents (emitted w (send_key_event env fd keycode keyvalue w)) =
      [⟨EV_KEY, keycode % 65536, keyvalue⟩, synReport, synReport] := by
  rw [emitted_of_trace_eq (send_key_event_trace env fd keycode keyvalue w)]
  by_cases h1 : env.write_ret w.writes < 0 <;>
    by_cases h3 : env.write_ret (w.writes + 2) < 0 <;>
    simp [writtenEvents, h1, h3]

theorem processBtn_eq (env : Env) (buttons mask key : Nat) (uinh : Int) (w : World) :
    processBtn env buttons mask key uinh w =
      send_key_event env uinh key (if (buttons &&& mask) = mask then 1 else 0) w := by
  unfold processBtn
  split <;> rfl

theorem processBtn_writes (env : Env) (buttons mask key : Nat) (uinh : Int) (w : World) :
    (processBtn env buttons mask key uinh w).writes = w.writes + 3 := by
  rw [processBtn_eq, send_key_event_writes]

theorem processBtn_reads (env : Env) (buttons mask key : Nat) (uinh : Int) (w : World) :
    (processBtn env buttons mask key uinh w).reads = w.reads := by
  rw [processBtn_eq, send_key_event_reads]

/-- The calls of one `processBtn`: they extend the trace, write the key event of the
table entry and two markers, and all belong to emitting `keys`. -/
theorem processBtn_spec (env : Env) (buttons : Nat) (uinh : Int) (entry : Nat × Nat)
    (keys : List Nat) (hmem : entry.2 % 65536 ∈ keys) (w : World) :
    ∃ X, (processBtn env buttons entry.1 entry.2 uinh w).trace = w.trace ++ X ∧
      writtenEvents X = [keyEventOf buttons entry, synReport, synReport] ∧
      ∀ a ∈ X, isEmitOf keys a = true := by
  have h := send_key_event_trace env uinh entry.2
    (if (buttons &&& entry.1) = entry.1 then 1 else 0) w
  rw [← processBtn_eq] at h
  refine ⟨_, h, ?_, ?_⟩
  · by_cases h1 : env.write_ret w.writes < 0 <;>
      by_cases h3 : env.write_ret (w.writes + 2) < 0 <;>
      simp [writtenEvents, keyEventOf, h1, h3]
  · by_cases h1 : env.write_ret w.writes < 0 <;>
      by_cases h3 : env.write_ret (w.writes + 2) < 0 <;>
      simp [isEmitOf, hmem, h1, h3]

/-- The calls of a run of `processBtn` over a table. -/
theorem processTable_spec (env : Env) (buttons : Nat) (uinh : Int) (keys : List Nat)
    (table : List (Nat × Nat)) :
    (∀ e ∈ table, e.2 % 65536 ∈ keys) → ∀ w : World,
    ∃ X, (processTable env buttons uinh table w).trace = w.trace ++ X ∧
      writtenEvents X = table.flatMap (fun e => [keyEventOf buttons e, synReport, synReport]) ∧
      (∀ a ∈ X, isEmitOf keys a = true) ∧
      (processTable env buttons uinh table w).reads = w.reads := by
  induction table with
  | nil => intro _ w; exact ⟨[], by simp [processTable], rfl, by simp, rfl⟩
  | cons e rest ih =>
    intro hk w
    obtain ⟨X1, hX1, hw1, he1⟩ :=
      processBtn_spec env buttons uinh e keys (hk e (List.mem_cons_self _ _)) w
    obtain ⟨X2, hX2, hw2, he2, hr2⟩ :=
      ih (fun e' he' => hk e' (List.mem_cons_of_mem _ he')) (processBtn env buttons e.1 e.2 uinh w)
    refine ⟨X1 ++ X2, ?_, ?_, ?_, ?_⟩
    · show (processTable env buttons uinh rest (processBtn env buttons e.1 e.2 uinh w)).trace = _
      rw [hX2, hX1, List.append_assoc]
    · rw [writtenEvents_append, hw1, hw2]; simp [List.flatMap_cons]
    · intro a ha
      rcases List.mem_append.mp ha with h | h
      · exact he1 a h
      · exact he2 a h
    · show (processTable env buttons uinh rest (processBtn env buttons e.1 e.2 uinh w)).reads = _
      rw [hr2, processBtn_reads]

theorem emit_pad1_eq (env : Env) (buttons1 : Nat) (uinp_fd : Int) (w : World) :
    emit_pad1 env buttons1 uinp_fd w = processTable env buttons1 uinp_fd table1 w := rfl

theorem emit_pad2_eq (env : Env) (buttons2 : Nat) (uinp_fd : Int) (w : World) :
    emit_pad2 env buttons2 uinp_fd w = processTable env buttons2 uinp_fd table2 w := rfl

theorem table1_keys_mem : ∀ e ∈ table1, e.2 % 65536 ∈ keys1 := by decide

theorem table2_keys_mem : ∀ e ∈ table2, e.2 % 65536 ∈ keys2 := by decide

theorem keyEvents_flatMap (buttons : Nat) (table : List (Nat × Nat)) :
    (table.flatMap (fun e => [keyEventOf buttons e, synReport, synReport])).filter
      (fun ev => ev.type = EV_KEY) = table.map (keyEventOf buttons) := by
  induction table with
  | nil => rfl
  | cons e rest ih =>
    rw [List.flatMap_cons, List.filter_append, ih]
    simp [keyEventOf, synReport, EV_KEY, EV_SYN]

/-- The calls of the emission part of one iteration: those of the first controller,
then those of the second, then the delay. -/
theorem emit_cycle_spec (env : Env) (buttons1 buttons2 : Nat) (uinp_fd : Int) (w : World) :
    ∃ E1 E2, (emit_cycle env buttons1 buttons2 uinp_fd w).trace =
        w.trace ++ (E1 ++ E2 ++ [Action.delay FRAMEWAIT]) ∧
      writtenEvents E1 =
        table1.flatMap (fun e => [keyEventOf buttons1 e, synReport, synReport]) ∧
      writtenEvents E2 =
        table2.flatMap (fun e => [keyEventOf buttons2 e, synReport, synReport]) ∧
      (∀ a ∈ E1, isEmitOf keys1 a = true) ∧ (∀ a ∈ E2, isEmitOf keys2 a = true) ∧
      (emit_cycle env buttons1 buttons2 uinp_fd w).reads = w.reads := by
  obtain ⟨E1, hE1, hw1, he1, hr1⟩ :=
    processTable_spec env buttons1 uinp_fd keys1 table1 table1_keys_mem w
  obtain ⟨E2, hE2, hw2, he2, hr2⟩ :=
    processTable_spec env buttons2 uinp_fd keys2 table2 table2_keys_mem
      (processTable env buttons1 uinp_fd table1 w)
  refine ⟨E1, E2, ?_, hw1, hw2, he1, he2, ?_⟩
  · show ((processTable env buttons2 uinp_fd table2
      (processTable env buttons1 uinp_fd table1 w)).trace ++ [Action.delay FRAMEWAIT]) = _
    rw [hE2, hE1]; simp [List.append_assoc]
  · show (processTable env buttons2 uinp_fd table2
      (processTable env buttons1 uinp_fd table1 w)).reads = _
    rw [hr2, hr1]

/-- The key-state events of the emission part of one iteration. -/
theorem emit_cycle_keyEvents (env : Env) (buttons1 buttons2 : Nat) (uinp_fd : Int) (w : World) :
    keyEvents (emitted w (emit_cycle env buttons1 buttons2 uinp_fd w)) =
      table1.map (keyEventOf buttons1) ++ table2.map (keyEventOf buttons2) := by
  obtain ⟨E1, E2, hE, hw1, hw2, -, -, -⟩ := emit_cycle_spec env buttons1 buttons2 uinp_fd w
  rw [emitted_of_trace_eq hE, keyEvents_append, keyEvents_append]
  simp only [keyEvents]
  rw [hw1, hw2, keyEvents_flatMap, keyEvents_flatMap]
  simp [writtenEvents]

theorem table1_keys_lt : ∀ e ∈ table1, e.2 < 65536 := by decide

theorem table2_keys_lt : ∀ e ∈ table2, e.2 < 65536 := by decide

/-- The events written for the first controller do not depend on the environment. -/
theorem emit_pad1_written (env : Env) (buttons1 : Nat) (uinp_fd : Int) (w : World) :
    writtenEvents (emitted w (emit_pad1 env buttons1 uinp_fd w)) =
      table1.flatMap (fun e => [keyEventOf buttons1 e, synReport, synReport]) := by
  obtain ⟨X, hX, hw, -, -⟩ :=
    processTable_spec env buttons1 uinp_fd keys1 table1 table1_keys_mem w
  rw [emit_pad1_eq, emitted_of_trace_eq hX, hw]

/-! ## The setup -/

theorem noPolling_append (a b : List Action) :
    noPolling (a ++ b) = (noPolling a && noPolling b) := by
  induction a with
  | nil => simp [noPolling]
  | cons x xs ih => cases x <;> simp [noPolling, ih]

theorem set_keybits_noPolling (fd : Int) (n : Nat) :
    ∀ (i : Nat) (w : World), noPolling (set_keybits fd n i w).trace = noPolling w.trace := by
  induction n with
  | zero => intro i w; rfl
  | succ n ih =>
    intro i w
    show noPolling (set_keybits fd n (i + 1) (ioctl fd Request.UI_SET_KEYBIT i w)).trace = _
    rw [ih]
    simp [ioctl, World.log, noPolling_append, noPolling]

/-- The value `setup_uinput_device` returns. -/
theorem setup_uinput_device_ret (env : Env) (w : World) :
    (setup_uinput_device env w).1 =
      if env.open_ret = 0 then -1 else if env.ioctl_create ≠ 0 then -1 else env.open_ret := by
  unfold setup_uinput_device
  by_cases h0 : env.open_ret = 0
  · simp [h0]
  · by_cases h1 : env.ioctl_create = 0 <;> simp [h0, h1]

theorem setup_uinput_device_noPolling (env : Env) (w : World) :
    noPolling (setup_uinput_device env w).2.trace = noPolling w.trace := by
  by_cases h0 : env.open_ret = 0
  · have hs : setup_uinput_device env w =
        (-1, printf Message.unable_to_open (w.log (Action.open_uinput env.open_ret))) := by
      unfold setup_uinput_device
      exact if_pos h0
    rw [hs]
    simp [printf, World.log, noPolling_append, noPolling]
  · have hk := set_keybits_noPolling env.open_ret 256 0
      (ioctl env.open_ret Request.UI_SET_EVBIT EV_REL
        (ioctl env.open_ret Request.UI_SET_EVBIT EV_KEY
          (w.log (Action.open_uinput env.open_ret))))
    generalize hwk : set_keybits env.open_ret 256 0
      (ioctl env.open_ret Request.UI_SET_EVBIT EV_REL
        (ioctl env.open_ret Request.UI_SET_EVBIT EV_KEY
          (w.log (Action.open_uinput env.open_ret)))) = wk at hk
    have hs : setup_uinput_device env w =
        if env.ioctl_create ≠ 0 then
          (-1, printf Message.unable_to_create (ioctl env.open_ret Request.UI_DEV_CREATE 0
            ⟨wk.writes + 1, wk.reads, wk.trace ++ [Action.write_user_dev env.open_ret]⟩))
        else
          (env.open_ret, ioctl env.open_ret Request.UI_DEV_CREATE 0
            ⟨wk.writes + 1, wk.reads, wk.trace ++ [Action.write_user_dev env.open_ret]⟩) := by
      rw [← hwk]
      unfold setup_uinput_device
      exact if_neg h0
    rw [hs]
    by_cases h1 : env.ioctl_create = 0 <;>
      simp [h1, printf, ioctl, World.log, noPolling_append, noPolling, hk]

/-- The part of C4 the code satisfies: if `bcm2835_init` fails, or `open` returns a
negative descriptor, or `UI_DEV_CREATE` fails, `main` returns a non-zero status and no
pad is polled and no event written, however long we watch. -/
theorem main_setup_failure (env : Env) (n : Nat)
    (h : env.bcm2835_init = 0 ∨ env.open_ret < 0 ∨ env.ioctl_create ≠ 0) :
    ∃ status, (main env n).1 = Outcome.returned status ∧ exit_status status ≠ 0 ∧
      noPolling (main env n).2.trace = true := by
  by_cases hi : env.bcm2835_init = 0
  · exact ⟨1, by simp [main, hi], by decide, by simp [main, hi, World.init, noPolling]⟩
  · have hneg : (setup_uinput_device env
        (initializePad pad2 (initializePad pad1 (gpio_fsel BUTTONHIGH FSel.OUTP
          (gpio_fsel BUTTONLOW FSel.OUTP (gpio_fsel BUTTONPIN FSel.INPT World.init)))))).1 < 0 := by
      rw [setup_uinput_device_ret]
      rcases h with h | h | h
      · exact absurd h hi
      · have : ¬ env.open_ret = 0 := by omega
        simp only [this, if_false]
        split <;> omega
      · by_cases h0 : env.open_ret = 0 <;> simp [h0, h]
    refine ⟨-1, ?_, by decide, ?_⟩
    · simp only [main, hi, if_false, hneg, if_true]
    · simp only [main, hi, if_false, hneg, if_true]
      simp [printf, World.log, noPolling_append, noPolling, setup_uinput_device_noPolling,
        initializePad, gpio_fsel, World.init]

/-- The part of C4 the code satisfies when all three setup calls succeed: with a
descriptor other than 0, `main` enters the polling loop with that descriptor. -/
theorem main_enters_polling (env : Env) (n : Nat) (hi : env.bcm2835_init ≠ 0)
    (ho : 0 < env.open_ret) (hc : env.ioctl_create = 0) :
    (main env n).1 = Outcome.polling env.open_ret := by
  have hne : ¬ env.open_ret = 0 := by omega
  have hret : (setup_uinput_device env
      (initializePad pad2 (initializePad pad1 (gpio_fsel BUTTONHIGH FSel.OUTP
        (gpio_fsel BUTTONLOW FSel.OUTP (gpio_fsel BUTTONPIN FSel.INPT World.init)))))).1 =
        env.open_ret := by
    rw [setup_uinput_device_ret]; simp [hne, hc]
  have hnn : ¬ env.open_ret < 0 := by omega
  simp only [main, hi, if_false, hret, hnn]

/-! ## The decoder -/

theorem samples_append (a b : List Action) : samples (a ++ b) = samples a ++ samples b := by
  induction a with
  | nil => rfl
  | cons x xs ih => cases x <;> simp [samples, ih]

/-- The clock pulse before every bit but the first: its calls and effect. -/
theorem clock_pulse_spec (pad : snespad) (i : Nat) (w : World) :
    ∃ P, (if i = 0 then w else gpio_write pad.clock LOW (gpio_write pad.clock HIGH w)).trace =
        w.trace ++ P ∧
      (∀ a ∈ P, isDecodeOf pad a = true) ∧ samples P = [] ∧ writtenEvents P = [] ∧
      (if i = 0 then w else gpio_write pad.clock LOW (gpio_write pad.clock HIGH w)).reads =
        w.reads := by
  by_cases h : i = 0
  · exact ⟨[], by simp [h], by simp, rfl, rfl, by simp [h]⟩
  · refine ⟨[Action.gpio_write pad.clock HIGH, Action.gpio_write pad.clock LOW], ?_, ?_, rfl, rfl, ?_⟩
    · simp [h, gpio_write, World.log]
    · simp [isDecodeOf]
    · simp [h, gpio_write, World.log]

/-- The bit loop: its calls, the samples it takes and the mask it builds. -/
theorem readBits_spec (env : Env) (pad : snespad) (n : Nat) :
    ∀ (i mask : Nat) (w : World), (∀ j, i ≤ j → mask.testBit j = false) →
    ∃ D, (readBits env pad n i mask w).2.trace = w.trace ++ D ∧
      (∀ a ∈ D, isDecodeOf pad a = true) ∧
      samples D = (List.range n).map (fun k => levelAt env pad.data (w.reads + k)) ∧
      writtenEvents D = [] ∧
      (readBits env pad n i mask w).2.reads = w.reads + n ∧
      ∀ j, (readBits env pad n i mask w).1.testBit j =
        if j < i then mask.testBit j
        else if j < i + n then !(env.lev pad.data (w.reads + (j - i))) else false := by
  induction n with
  | zero =>
    intro i mask w hm
    refine ⟨[], by simp [readBits], by simp, rfl, rfl, rfl, ?_⟩
    intro j
    by_cases hj : j < i
    · simp [readBits, hj]
    · simp [readBits, hj, hm j (Nat.le_of_not_lt hj)]
  | succ n ih =>
    intro i mask w hm
    obtain ⟨P, hP, hPd, hPs, hPw, hPr⟩ := clock_pulse_spec pad i w
    generalize hw1 : (if i = 0 then w else gpio_write pad.clock LOW (gpio_write pad.clock HIGH w))
      = w1 at hP hPr
    have hstep : readBits env pad (n + 1) i mask w =
        readBits env pad n (i + 1)
          (if (gpio_lev env pad.data w1).1 = LOW then mask ||| (1 <<< i) else mask)
          (gpio_lev env pad.data w1).2 := by
      rw [← hw1]; rfl
    have hlev : (gpio_lev env pad.data w1).1 = levelAt env pad.data w.reads := by
      simp [gpio_lev, levelAt, hPr]
    have hm' : ∀ j, i + 1 ≤ j →
        (if (gpio_lev env pad.data w1).1 = LOW then mask ||| (1 <<< i) else mask).testBit j
          = false := by
      intro j hj
      have hne : ¬ i = j := by omega
      split
      · rw [Nat.testBit_or, hm j (by omega), Nat.one_shiftLeft, Nat.testBit_two_pow]
        simp [hne]
      · exact hm j (by omega)
    obtain ⟨D, hD, hDd, hDs, hDw, hDr, hbits⟩ := ih (i + 1) _ (gpio_lev env pad.data w1).2 hm'
    have htr : (gpio_lev env pad.data w1).2.trace =
        w.trace ++ (P ++ [Action.gpio_lev pad.data (levelAt env pad.data w.reads)]) := by
      simp [gpio_lev, levelAt, hP, hPr]
    have hrd : (gpio_lev env pad.data w1).2.reads = w.reads + 1 := by
      simp [gpio_lev, hPr]
    refine ⟨P ++ [Action.gpio_lev pad.data (levelAt env pad.data w.reads)] ++ D, ?_, ?_, ?_, ?_,
      ?_, ?_⟩
    · rw [hstep, hD, htr]; simp [List.append_assoc]
    · intro a ha
      simp only [List.mem_append, List.mem_singleton] at ha
      rcases ha with (h | h) | h
      · exact hPd a h
      · subst h; simp [isDecodeOf]
      · exact hDd a h
    · rw [samples_append, samples_append, hPs, hDs, hrd, List.range_succ_eq_map]
      simp [samples, Nat.add_assoc, Nat.add_comm 1]
    · rw [writtenEvents_append, writtenEvents_append, hPw, hDw]; rfl
    · rw [hstep, hDr, hrd]; omega
    · intro j
      rw [hstep, hbits j, hrd, hlev]
      by_cases hji : j < i
      · have h1 : j < i + 1 := by omega
        have hne : ¬ i = j := by omega
        simp only [hji, h1, if_true]
        split
        · rw [Nat.testBit_or, Nat.one_shiftLeft, Nat.testBit_two_pow]; simp [hne]
        · rfl
      · by_cases hje : j = i
        · subst hje
          have h2 : j < j + (n + 1) := by omega
          simp only [Nat.lt_irrefl, Nat.lt_succ_self, if_true, if_false, h2, Nat.sub_self,
            Nat.add_zero]
          cases hl : env.lev pad.data w.reads
          · simp [levelAt, hl, LOW, Nat.testBit_or, Nat.one_shiftLeft, Nat.testBit_two_pow]
          · simp [levelAt, hl, LOW, HIGH, hm j (Nat.le_refl j)]
        · have h1 : ¬ j < i + 1 := by omega
          have h3 : w.reads + 1 + (j - (i + 1)) = w.reads + (j - i) := by omega
          have h4 : (j < i + 1 + n) ↔ (j < i + (n + 1)) := by omega
          simp only [hji, h1, if_false, h3, h4]

/-- One decode: its calls, the samples it takes and the bits of the mask. -/
theorem updateButtons_spec (env : Env) (pad : snespad) (w : World) :
    ∃ D, (updateButtons env pad w).2.trace = w.trace ++ D ∧
      (∀ a ∈ D, isDecodeOf pad a = true) ∧
      samples D = (List.range 12).map (fun k => levelAt env pad.data (w.reads + k)) ∧
      writtenEvents D = [] ∧
      (updateButtons env pad w).2.reads = w.reads + 12 ∧
      ∀ j, (updateButtons env pad w).1.testBit j =
        if j < 12 then !(env.lev pad.data (w.reads + j)) else false := by
  obtain ⟨D, hD, hDd, hDs, hDw, hDr, hbits⟩ :=
    readBits_spec env pad 12 0 0 (gpio_write pad.strobe LOW (gpio_write pad.strobe HIGH w))
      (fun j _ => Nat.zero_testBit j)
  have hbits' : ∀ j, (readBits env pad 12 0 0
      (gpio_write pad.strobe LOW (gpio_write pad.strobe HIGH w))).1.testBit j =
        if j < 12 then !(env.lev pad.data (w.reads + j)) else false := by
    intro j
    rw [hbits j]
    simp [gpio_write, World.log]
  have hlt : (readBits env pad 12 0 0
      (gpio_write pad.strobe LOW (gpio_write pad.strobe HIGH w))).1 < 2 ^ 12 := by
    apply Nat.lt_pow_two_of_testBit
    intro j hj
    rw [hbits' j]
    have : ¬ j < 12 := by omega
    simp [this]
  have hmod : (updateButtons env pad w).1 = (readBits env pad 12 0 0
      (gpio_write pad.strobe LOW (gpio_write pad.strobe HIGH w))).1 := by
    show _ % 65536 = _
    exact Nat.mod_eq_of_lt (by omega)
  refine ⟨[Action.gpio_write pad.strobe HIGH, Action.gpio_write pad.strobe LOW] ++ D, ?_, ?_, ?_,
    ?_, ?_, ?_⟩
  · show (readBits env pad 12 0 0
      (gpio_write pad.strobe LOW (gpio_write pad.strobe HIGH w))).2.trace = _
    rw [hD]; simp [gpio_write, World.log]
  · intro a ha
    simp only [List.mem_append, List.mem_cons, List.mem_singleton, List.not_mem_nil,
      or_false] at ha
    rcases ha with (h | h) | h
    · subst h; simp [isDecodeOf]
    · subst h; simp [isDecodeOf]
    · exact hDd a h
  · rw [samples_append, hDs]; simp [samples, gpio_write, World.log]
  · rw [writtenEvents_append, hDw]; rfl
  · show (readBits env pad 12 0 0
      (gpio_write pad.strobe LOW (gpio_write pad.strobe HIGH w))).2.reads = _
    rw [hDr]; simp [gpio_write, World.log]
  · intro j; rw [hmod, hbits' j]

/-! ## Order of the calls in the main loop -/

theorem main_loop_succ (env : Env) (p1 p2 : snespad) (uinp_fd : Int) (n : Nat) :
    ∀ w : World, main_loop env p1 p2 uinp_fd (n + 1) w =
      loop_body env p1 p2 uinp_fd (main_loop env p1 p2 uinp_fd n w) := by
  induction n with
  | zero => intro w; rfl
  | succ n ih =>
    intro w
    show main_loop env p1 p2 uinp_fd (n + 1) (loop_body env p1 p2 uinp_fd w) = _
    rw [ih]; rfl

theorem keyEvents_codes (buttons : Nat) (table : List (Nat × Nat))
    (hlt : ∀ e ∈ table, e.2 < 65536) :
    (table.map (keyEventOf buttons)).map (fun ev => ev.code) = table.map Prod.snd := by
  rw [List.map_map]
  apply List.map_congr_left
  intro e he
  simp [keyEventOf, Nat.mod_eq_of_lt (hlt e he)]

/-- The calls of one iteration, in order: decode of the first pad, decode of the
second pad, emission for the first controller, emission for the second, delay. -/
theorem loop_body_spec (env : Env) (uinp_fd : Int) (w : World) :
    ∃ D1 D2 E1 E2, (loop_body env pad1 pad2 uinp_fd w).trace =
        w.trace ++ (D1 ++ D2 ++ E1 ++ E2 ++ [Action.delay FRAMEWAIT]) ∧
      D1.all (isDecodeOf pad1) = true ∧ (samples D1).length = 12 ∧
      D2.all (isDecodeOf pad2) = true ∧ (samples D2).length = 12 ∧
      E1.all (isEmitOf keys1) = true ∧ (keyEvents E1).map (fun ev => ev.code) = keys1 ∧
      E2.all (isEmitOf keys2) = true ∧ (keyEvents E2).map (fun ev => ev.code) = keys2 := by
  obtain ⟨D1, hD1, hd1, hs1, -, -, -⟩ := updateButtons_spec env pad1 w
  obtain ⟨D2, hD2, hd2, hs2, -, -, -⟩ := updateButtons_spec env pad2 (updateButtons env pad1 w).2
  obtain ⟨E1, E2, hE, hw1, hw2, he1, he2, -⟩ :=
    emit_cycle_spec env (updateButtons env pad1 w).1
      (updateButtons env pad2 (updateButtons env pad1 w).2).1 uinp_fd
      (updateButtons env pad2 (updateButtons env pad1 w).2).2
  refine ⟨D1, D2, E1, E2, ?_, List.all_eq_true.mpr hd1, by rw [hs1]; simp,
    List.all_eq_true.mpr hd2, by rw [hs2]; simp, List.all_eq_true.mpr he1, ?_,
    List.all_eq_true.mpr he2, ?_⟩
  · show (emit_cycle env (updateButtons env pad1 w).1
      (updateButtons env pad2 (updateButtons env pad1 w).2).1 uinp_fd
      (updateButtons env pad2 (updateButtons env pad1 w).2).2).trace = _
    rw [hE, hD2, hD1]; simp [List.append_assoc]
  · rw [keyEvents, hw1, keyEvents_flatMap, keyEvents_codes _ _ table1_keys_lt]; rfl
  · rw [keyEvents, hw2, keyEvents_flatMap, keyEvents_codes _ _ table2_keys_lt]; rfl

/-- The key-state events of one whole iteration: the decodes write none, the
emission writes one per table entry for the decoded masks. -/
theorem loop_body_keyEvents (env : Env) (uinp_fd : Int) (w : World) :
    keyEvents (emitted w (loop_body env pad1 pad2 uinp_fd w)) =
      table1.map (keyEventOf (updateButtons env pad1 w).1) ++
        table2.map (keyEventOf (updateButtons env pad2 (updateButtons env pad1 w).2).1) := by
  obtain ⟨D1, hD1, -, -, hw1, -, -⟩ := updateButtons_spec env pad1 w
  obtain ⟨D2, hD2, -, -, hw2, -, -⟩ := updateButtons_spec env pad2 (updateButtons env pad1 w).2
  have hE := emit_cycle_keyEvents env (updateButtons env pad1 w).1
    (updateButtons env pad2 (updateButtons env pad1 w).2).1 uinp_fd
    (updateButtons env pad2 (updateButtons env pad1 w).2).2
  obtain ⟨E1, E2, hT, -⟩ := emit_cycle_spec env (updateButtons env pad1 w).1
    (updateButtons env pad2 (updateButtons env pad1 w).2).1 uinp_fd
    (updateButtons env pad2 (updateButtons env pad1 w).2).2
  rw [emitted_of_trace_eq hT] at hE
  have hL : (loop_body env pad1 pad2 uinp_fd w).trace =
      w.trace ++ (D1 ++ (D2 ++ (E1 ++ E2 ++ [Action.delay FRAMEWAIT]))) := by
    show (emit_cycle env (updateButtons env pad1 w).1
      (updateButtons env pad2 (updateButtons env pad1 w).2).1 uinp_fd
      (updateButtons env pad2 (updateButtons env pad1 w).2).2).trace = _
    rw [hT, hD2, hD1]; simp [List.append_assoc]
  rw [emitted_of_trace_eq hL, keyEvents_append, keyEvents_append, hE]
  simp [keyEvents, hw1, hw2]

/-- The events written for the second controller do not depend on the environment. -/
theorem emit_pad2_written (env : Env) (buttons2 : Nat) (uinp_fd : Int) (w : World) :
    writtenEvents (emitted w (emit_pad2 env buttons2 uinp_fd w)) =
      table2.flatMap (fun e => [keyEventOf buttons2 e, synReport, synReport]) := by
  obtain ⟨X, hX, hw, -, -⟩ :=
    processTable_spec env buttons2 uinp_fd keys2 table2 table2_keys_mem w
  rw [emit_pad2_eq, emitted_of_trace_eq hX, hw]

/-- The key codes of the key-state events written for the first controller. -/
theorem emit_pad1_codes (env : Env) (buttons1 : Nat) (uinp_fd : Int) (w : World) :
    (keyEvents (emitted w (emit_pad1 env buttons1 uinp_fd w))).map (fun ev => ev.code) =
      keys1 := by
  rw [keyEvents, emit_pad1_written, keyEvents_flatMap, keyEvents_codes _ _ table1_keys_lt]
  rfl

/-- The key codes of the key-state events written for the second controller. -/
theorem emit_pad2_codes (env : Env) (buttons2 : Nat) (uinp_fd : Int) (w : World) :
    (keyEvents (emitted w (emit_pad2 env buttons2 uinp_fd w))).map (fun ev => ev.code) =
      keys2 := by
  rw [keyEvents, emit_pad2_written, keyEvents_flatMap, keyEvents_codes _ _ table2_keys_lt]
  rfl

/-- The key codes of the key-state events written in the emission part of one
iteration. -/
theorem emit_cycle_codes (env : Env) (buttons1 buttons2 : Nat) (uinp_fd : Int) (w : World) :
    (keyEvents (emitted w (emit_cycle env buttons1 buttons2 uinp_fd w))).map
      (fun ev => ev.code) = keys1 ++ keys2 := by
  rw [emit_cycle_keyEvents, List.map_append, keyEvents_codes _ _ table1_keys_lt,
    keyEvents_codes _ _ table2_keys_lt]
  rfl

/-- The key codes of the key-state events written in one whole iteration. -/
theorem loop_body_codes (env : Env) (uinp_fd : Int) (w : World) :
    (keyEvents (emitted w (loop_body env pad1 pad2 uinp_fd w))).map (fun ev => ev.code) =
      keys1 ++ keys2 := by
  rw [loop_body_keyEvents, List.map_append, keyEvents_codes _ _ table1_keys_lt,
    keyEvents_codes _ _ table2_keys_lt]
  rfl

/-! ## The claims -/

/-- C1: for every button mask, selector and 16-bit key code, the key-state events
`processBtn` sends are exactly one event for `key`, whose value is 1 if
`(buttons & mask) == mask` and 0 otherwise. -/
theorem processBtn_sends_one_key_event (env : Env) (buttons mask key : Nat) (fd : Int)
    (w : World) (hk : key < 65536) :
    keyEvents (emitted w (processBtn env buttons mask key fd w)) =
      [⟨EV_KEY, key, if (buttons &&& mask) = mask then 1 else 0⟩] := by
  rw [processBtn_eq, keyEvents, send_key_event_written, Nat.mod_eq_of_lt hk]
  simp [synReport, EV_KEY, EV_SYN]

/-- Witness of C1: button B pressed, selector `SNES_B`, key `KEY_Z`. -/
theorem processBtn_sends_one_key_event_witness :
    KEY_Z < 65536 ∧
    keyEvents (emitted World.init (processBtn envOK 0x001 SNES_B KEY_Z 3 World.init)) =
      [⟨EV_KEY, KEY_Z, if (0x001 &&& SNES_B) = SNES_B then 1 else 0⟩] :=
  ⟨by decide, processBtn_sends_one_key_event envOK 0x001 SNES_B KEY_Z 3 World.init (by decide)⟩

/-- C2: for every pair of masks, the key-state events emitted in one iteration are
24 events, one per table entry in call order (12 of controller 1, then 12 of
controller 2); their key codes are the same 24 codes whatever the masks are; and
every mapped key whose button is not pressed gets a key-up event (value 0).  The last
part says the same of a whole iteration, decodes included, for the masks decoded. -/
theorem cycle_emits_24_key_events (env : Env) (buttons1 buttons2 : Nat) (uinp_fd : Int)
    (w : World) :
    keyEvents (emitted w (emit_cycle env buttons1 buttons2 uinp_fd w)) =
      table1.map (keyEventOf buttons1) ++ table2.map (keyEventOf buttons2) ∧
    (keyEvents (emitted w (emit_cycle env buttons1 buttons2 uinp_fd w))).length = 24 ∧
    (keyEvents (emitted w (emit_cycle env buttons1 buttons2 uinp_fd w))).map (fun ev => ev.code) =
      [KEY_X, KEY_Z, KEY_S, KEY_A, KEY_Q, KEY_W, KEY_RIGHTSHIFT, KEY_ENTER, KEY_LEFT, KEY_RIGHT,
       KEY_UP, KEY_DOWN, KEY_E, KEY_R, KEY_T, KEY_Y, KEY_U, KEY_I, KEY_O, KEY_P, KEY_C, KEY_B,
       KEY_F, KEY_V] ∧
    (∀ e ∈ table1, (buttons1 &&& e.1) ≠ e.1 →
      (⟨EV_KEY, e.2, 0⟩ : input_event) ∈
        keyEvents (emitted w (emit_cycle env buttons1 buttons2 uinp_fd w))) ∧
    (∀ e ∈ table2, (buttons2 &&& e.1) ≠ e.1 →
      (⟨EV_KEY, e.2, 0⟩ : input_event) ∈
        keyEvents (emitted w (emit_cycle env buttons1 buttons2 uinp_fd w))) ∧
    keyEvents (emitted w (loop_body env pad1 pad2 uinp_fd w)) =
      table1.map (keyEventOf (updateButtons env pad1 w).1) ++
        table2.map (keyEventOf (updateButtons env pad2 (updateButtons env pad1 w).2).1) := by
  rw [emit_cycle_keyEvents]
  refine ⟨rfl, by simp [table1, table2], ?_, ?_, ?_, loop_body_keyEvents env uinp_fd w⟩
  · simp [table1, table2, keyEventOf]
    decide
  · intro e he hne
    refine List.mem_append_left _ (List.mem_map.mpr ⟨e, he, ?_⟩)
    simp [keyEventOf, hne, Nat.mod_eq_of_lt (table1_keys_lt e he)]
  · intro e he hne
    refine List.mem_append_right _ (List.mem_map.mpr ⟨e, he, ?_⟩)
    simp [keyEventOf, hne, Nat.mod_eq_of_lt (table2_keys_lt e he)]

/-- Witness of C2: with both masks 0 no button is pressed, and the entry
(`SNES_A`, `KEY_X`) of controller 1 gets its key-up event. -/
theorem cycle_emits_24_key_events_witness :
    (SNES_A, KEY_X) ∈ table1 ∧ (0 &&& SNES_A) ≠ SNES_A ∧
    (⟨EV_KEY, KEY_X, 0⟩ : input_event) ∈
      keyEvents (emitted World.init (emit_cycle envOK 0 0 3 World.init)) :=
  ⟨by decide, by decide,
    (cycle_emits_24_key_events envOK 0 0 3 World.init).2.2.2.1 (SNES_A, KEY_X) (by decide)
      (by decide)⟩

/-- C3: what the code does at `send_key_event(3, KEY_Z, 1)` (and at every other
input): it writes the key-state event and then the synchronisation marker twice, so
the marker is not the only one in the sequence. -/
theorem send_key_event_writes_two_markers (env : Env) (fd : Int) (keycode : Nat)
    (keyvalue : Int) (w : World) :
    writtenEvents (emitted w (send_key_event env fd keycode keyvalue w)) =
      [⟨EV_KEY, keycode % 65536, keyvalue⟩, ⟨EV_SYN, SYN_REPORT, 0⟩, ⟨EV_SYN, SYN_REPORT, 0⟩] ∧
    (synEvents (emitted w (send_key_event env fd keycode keyvalue w))).length = 2 := by
  rw [synEvents, send_key_event_written]
  refine ⟨rfl, ?_⟩
  simp [synReport, EV_KEY, EV_SYN]

/-- C4: what the code does when `bcm2835_init` succeeds, `open` returns descriptor 0
and `UI_DEV_CREATE` succeeds: `setup_uinput_device` takes descriptor 0 for a failure,
`main` returns -1 and the polling loop is never entered, however long we watch. -/
theorem main_rejects_descriptor_zero (n : Nat) :
    envOpenZero.bcm2835_init ≠ 0 ∧ ¬ envOpenZero.open_ret < 0 ∧ envOpenZero.ioctl_create = 0 ∧
    (main envOpenZero n).1 = Outcome.returned (-1) ∧
    exit_status (-1) ≠ 0 ∧
    noPolling (main envOpenZero n).2.trace = true ∧
    (main envOpenZero n).2.trace.drop 9 =
      [Action.open_uinput 0, Action.printf Message.unable_to_open,
       Action.printf Message.unable_to_find] := by
  refine ⟨by decide, by decide, rfl, rfl, by decide, rfl, rfl⟩

/-- C5: what the code does when the second `write` of `send_key_event` (the first
write of the marker, whose result is dropped) fails and the other two succeed: one
write returned a negative result and no "simulate key error" message is printed. -/
theorem send_key_event_unlogged_failure :
    failedWrites (emitted World.init (send_key_event envSecondWriteFails 3 KEY_Z 1 World.init)) = 1 ∧
    keyErrors (emitted World.init (send_key_event envSecondWriteFails 3 KEY_Z 1 World.init)) = 0 := by
  rw [emitted_of_trace_eq (send_key_event_trace envSecondWriteFails 3 KEY_Z 1 World.init)]
  constructor <;> decide

/-- C6: for every sequence of 12 data-line levels sampled during one read,
`updateButtons` takes exactly 12 samples and returns a mask whose bit `i` (for
`i < 12`) is 1 if and only if the `i`-th sample is low, and whose bits from 12 up are
0; an all-low sequence gives 0xFFF and an all-high sequence gives 0x0000. -/
theorem updateButtons_mask (env : Env) (pad : snespad) (w : World) :
    (samples (emitted w (updateButtons env pad w).2)).length = 12 ∧
    (∀ i, i < 12 → (updateButtons env pad w).1.testBit i =
      decide ((samples (emitted w (updateButtons env pad w).2))[i]? = some LOW)) ∧
    (∀ i, 12 ≤ i → (updateButtons env pad w).1.testBit i = false) ∧
    (updateButtons env pad w).1 < 0x1000 ∧
    (samples (emitted w (updateButtons env pad w).2) = List.replicate 12 LOW →
      (updateButtons env pad w).1 = 0xFFF) ∧
    (samples (emitted w (updateButtons env pad w).2) = List.replicate 12 HIGH →
      (updateButtons env pad w).1 = 0x0000) := by
  obtain ⟨D, hD, -, hDs, -, -, hbits⟩ := updateButtons_spec env pad w
  rw [emitted_of_trace_eq hD, hDs]
  have hget : ∀ i, i < 12 →
      ((List.range 12).map (fun k => levelAt env pad.data (w.reads + k)))[i]? =
        some (levelAt env pad.data (w.reads + i)) := by
    intro i hi
    rw [List.getElem?_map, List.getElem?_range hi]; rfl
  have hhigh : ∀ i, 12 ≤ i → (updateButtons env pad w).1.testBit i = false := by
    intro i hi
    have : ¬ i < 12 := by omega
    rw [hbits i]; simp [this]
  have hlow : ∀ i, i < 12 → (updateButtons env pad w).1.testBit i =
      decide (((List.range 12).map (fun k => levelAt env pad.data (w.reads + k)))[i]? =
        some LOW) := by
    intro i hi
    rw [hbits i, hget i hi]
    cases hl : env.lev pad.data (w.reads + i) <;> simp [hi, levelAt, hl, HIGH, LOW]
  refine ⟨by simp, hlow, hhigh, ?_, ?_, ?_⟩
  · exact Nat.lt_pow_two_of_testBit (n := 12) _ hhigh
  · intro hs
    apply Nat.eq_of_testBit_eq
    intro i
    have h12 : (0xFFF : Nat) = 2 ^ 12 - 1 := by decide
    rw [h12, Nat.testBit_two_pow_sub_one]
    by_cases hi : i < 12
    · rw [hlow i hi, hs, List.getElem?_replicate]
      simp [hi]
    · rw [hhigh i (by omega)]; simp [hi]
  · intro hs
    apply Nat.eq_of_testBit_eq
    intro i
    rw [Nat.zero_testBit]
    by_cases hi : i < 12
    · rw [hlow i hi, hs, List.getElem?_replicate]
      simp [hi, HIGH, LOW]
    · exact hhigh i (by omega)

/-- Witness of C6: with every data line low the decoded mask of pad 1 is 0xFFF
and bit 0 is set; with every data line high it is 0x0000. -/
theorem updateButtons_mask_witness :
    (samples (emitted World.init (updateButtons envAllLow pad1 World.init).2) =
      List.replicate 12 LOW ∧ (updateButtons envAllLow pad1 World.init).1 = 0xFFF) ∧
    (samples (emitted World.init (updateButtons envOK pad1 World.init).2) =
      List.replicate 12 HIGH ∧ (updateButtons envOK pad1 World.init).1 = 0x0000) ∧
    (0 < 12 ∧ (updateButtons envAllLow pad1 World.init).1.testBit 0 =
      decide ((samples (emitted World.init (updateButtons envAllLow pad1 World.init).2))[0]? =
        some LOW)) :=
  ⟨⟨by decide, (updateButtons_mask envAllLow pad1 World.init).2.2.2.2.1 (by decide)⟩,
   ⟨by decide, (updateButtons_mask envOK pad1 World.init).2.2.2.2.2 (by decide)⟩,
   ⟨by decide, (updateButtons_mask envAllLow pad1 World.init).2.1 0 (by decide)⟩⟩

set_option maxRecDepth 100000 in
/-- C7, as stated, fails: in the first iteration with every call succeeding, call 38
is the first read of pad 2's data pin and call 72 is the write of controller 1's
first key event, so an action of controller 2 comes before an action of
controller 1. -/
theorem ctrl2_decode_precedes_ctrl1_emission :
    ¬ ctrl1BeforeCtrl2 (emitted World.init (loop_body envOK pad1 pad2 3 World.init)) := by
  intro h
  have h' := h 72 38 (Action.write 3 ⟨EV_KEY, KEY_X, 0⟩ 24) (Action.gpio_lev pad2.data HIGH)
    rfl rfl rfl rfl
  omega

/-- C7, amended: the calls of every iteration of the main loop are, in this order,
the decode of pad 1 (12 samples), the decode of pad 2 (12 samples), the emission of
controller 1's 12 keys, the emission of controller 2's 12 keys, and the delay; and
they all come after the calls of the iterations before. -/
theorem iteration_order (env : Env) (uinp_fd : Int) (n : Nat) (w : World) :
    ∃ D1 D2 E1 E2, (main_loop env pad1 pad2 uinp_fd (n + 1) w).trace =
        (main_loop env pad1 pad2 uinp_fd n w).trace ++
          (D1 ++ D2 ++ E1 ++ E2 ++ [Action.delay FRAMEWAIT]) ∧
      D1.all (isDecodeOf pad1) = true ∧ (samples D1).length = 12 ∧
      D2.all (isDecodeOf pad2) = true ∧ (samples D2).length = 12 ∧
      E1.all (isEmitOf keys1) = true ∧ (keyEvents E1).map (fun ev => ev.code) = keys1 ∧
      E2.all (isEmitOf keys2) = true ∧ (keyEvents E2).map (fun ev => ev.code) = keys2 := by
  rw [main_loop_succ]
  exact loop_body_spec env uinp_fd _

/-- C8, as stated, fails: with mask 0x001 the first event written for controller 1
is the release of `KEY_X` (the table starts with button A), not the press of `KEY_Z`,
and the first key-state event is not `KEY_Z` pressed. -/
theorem pad1_first_event_is_not_KEY_Z :
    (writtenEvents (emitted World.init (emit_pad1 envOK 0x001 3 World.init))).head? =
      some ⟨EV_KEY, KEY_X, 0⟩ ∧
    (keyEvents (emitted World.init (emit_pad1 envOK 0x001 3 World.init))).head? ≠
      some ⟨EV_KEY, KEY_Z, 1⟩ := by
  rw [keyEvents, emit_pad1_written]
  decide

/-- C8, amended: with mask 0x001 the key-state events written for controller 1 are,
in table order, one per key: `KEY_Z` (second, after `KEY_X`) with value 1 and the
other 11 keys with value 0; every key-state event is directly followed by a
synchronisation marker, and the last event written is a synchronisation marker. -/
theorem pad1_events_for_mask_001 (env : Env) (uinp_fd : Int) (w : World) :
    keyEvents (emitted w (emit_pad1 env 0x001 uinp_fd w)) =
      [⟨EV_KEY, KEY_X, 0⟩, ⟨EV_KEY, KEY_Z, 1⟩, ⟨EV_KEY, KEY_S, 0⟩, ⟨EV_KEY, KEY_A, 0⟩,
       ⟨EV_KEY, KEY_Q, 0⟩, ⟨EV_KEY, KEY_W, 0⟩, ⟨EV_KEY, KEY_RIGHTSHIFT, 0⟩,
       ⟨EV_KEY, KEY_ENTER, 0⟩, ⟨EV_KEY, KEY_LEFT, 0⟩, ⟨EV_KEY, KEY_RIGHT, 0⟩,
       ⟨EV_KEY, KEY_UP, 0⟩, ⟨EV_KEY, KEY_DOWN, 0⟩] ∧
    keyThenSyn (writtenEvents (emitted w (emit_pad1 env 0x001 uinp_fd w))) = true ∧
    (writtenEvents (emitted w (emit_pad1 env 0x001 uinp_fd w))).getLast? =
      some ⟨EV_SYN, SYN_REPORT, 0⟩ := by
  rw [keyEvents, emit_pad1_written]
  decide

/-- C9: for each controller the selectors passed to its 12 `processBtn` calls are
the 12 button identities B, Y, Select, Start, Up, Down, Left, Right, A, X, L, R, each
exactly once; with the bit assignment of the spec these are the single bits 0 to 11,
so each mask bit is tested exactly once per controller per cycle. -/
theorem tables_total_over_buttons (env : Env) (buttons1 buttons2 : Nat) (uinp_fd : Int)
    (w : World) :
    emit_pad1 env buttons1 uinp_fd w = processTable env buttons1 uinp_fd table1 w ∧
    emit_pad2 env buttons2 uinp_fd w = processTable env buttons2 uinp_fd table2 w ∧
    (table1.map Prod.fst).Perm
      [SNES_B, SNES_Y, SNES_SELECT, SNES_START, SNES_UP, SNES_DOWN, SNES_LEFT, SNES_RIGHT,
       SNES_A, SNES_X, SNES_L, SNES_R] ∧
    (table2.map Prod.fst).Perm
      [SNES_B, SNES_Y, SNES_SELECT, SNES_START, SNES_UP, SNES_DOWN, SNES_LEFT, SNES_RIGHT,
       SNES_A, SNES_X, SNES_L, SNES_R] ∧
    [SNES_B, SNES_Y, SNES_SELECT, SNES_START, SNES_UP, SNES_DOWN, SNES_LEFT, SNES_RIGHT,
       SNES_A, SNES_X, SNES_L, SNES_R] = (List.range 12).map (fun i => 2 ^ i) ∧
    (∀ i < 12, (table1.map Prod.fst).count (2 ^ i) = 1) ∧
    (∀ i < 12, (table2.map Prod.fst).count (2 ^ i) = 1) := by
  refine ⟨rfl, rfl, by decide, by decide, by decide, by decide, by decide⟩

/-- Witness of C9: mask bit 0 (button B) is tested exactly once by controller 1. -/
theorem tables_total_over_buttons_witness :
    (0 < 12) ∧ (table1.map Prod.fst).count (2 ^ 0) = 1 :=
  ⟨by decide,
    (tables_total_over_buttons envOK 0 0 3 World.init).2.2.2.2.2.1 0 (by decide)⟩

/-- C10: for all masks, environments and worlds, the key codes of the 24 key-state
events emitted in one cycle are pairwise distinct: the codes emitted for controller 1
are the 12 codes of its table without repetition, those emitted for controller 2 are
the 12 codes of its table without repetition, the two sets of codes are disjoint, and
the 24 codes of the cycle (of its emission part and of the whole iteration, decodes
included) have no repetition. -/
theorem table_keys_pairwise_distinct (env : Env) (buttons1 buttons2 : Nat) (uinp_fd : Int)
    (w w2 : World) :
    (keyEvents (emitted w (emit_pad1 env buttons1 uinp_fd w))).map (fun ev => ev.code) =
      [KEY_X, KEY_Z, KEY_S, KEY_A, KEY_Q, KEY_W, KEY_RIGHTSHIFT, KEY_ENTER, KEY_LEFT,
       KEY_RIGHT, KEY_UP, KEY_DOWN] ∧
    (keyEvents (emitted w2 (emit_pad2 env buttons2 uinp_fd w2))).map (fun ev => ev.code) =
      [KEY_E, KEY_R, KEY_T, KEY_Y, KEY_U, KEY_I, KEY_O, KEY_P, KEY_C, KEY_B, KEY_F, KEY_V] ∧
    ((keyEvents (emitted w (emit_pad1 env buttons1 uinp_fd w))).map (fun ev => ev.code)).Nodup ∧
    ((keyEvents (emitted w2 (emit_pad2 env buttons2 uinp_fd w2))).map
      (fun ev => ev.code)).Nodup ∧
    List.Disjoint
      ((keyEvents (emitted w (emit_pad1 env buttons1 uinp_fd w))).map (fun ev => ev.code))
      ((keyEvents (emitted w2 (emit_pad2 env buttons2 uinp_fd w2))).map (fun ev => ev.code)) ∧
    (keyEvents (emitted w (emit_cycle env buttons1 buttons2 uinp_fd w))).length = 24 ∧
    ((keyEvents (emitted w (emit_cycle env buttons1 buttons2 uinp_fd w))).map
      (fun ev => ev.code)).Nodup ∧
    (keyEvents (emitted w (loop_body env pad1 pad2 uinp_fd w))).length = 24 ∧
    ((keyEvents (emitted w (loop_body env pad1 pad2 uinp_fd w))).map
      (fun ev => ev.code)).Nodup := by
  have hnd : (keys1 ++ keys2).Nodup := by decide
  have hlen : ∀ l : List input_event, l.map (fun ev => ev.code) = keys1 ++ keys2 →
      l.length = 24 := by
    intro l hl
    have h := congrArg List.length hl
    rw [List.length_map] at h
    rw [h]; rfl
  rw [emit_pad1_codes, emit_pad2_codes, emit_cycle_codes, loop_body_codes]
  exact ⟨rfl, rfl, (List.nodup_append.mp hnd).1, (List.nodup_append.mp hnd).2.1,
    (List.nodup_append.mp hnd).2.2, hlen _ (emit_cycle_codes env buttons1 buttons2 uinp_fd w),
    hnd, hlen _ (loop_body_codes env uinp_fd w), hnd⟩

end SNESDev
